import Mathlib

/-!
Verification of the ticket-lifecycle engine of the `newbot` repository.

The repository contains several near-duplicate Discord ticket bots
(`newbot.py`, `noobbot.py`, `coachbot.py`, `cogs/ticketing.py`,
`cogs/coaching.py`, `cogs/applications.py`).  Ticket state is smuggled
into the channel-topic string via ad-hoc `key=value|key=value` codecs.
This file shallowly embeds those codecs and the guarded transitions
(open / claim / approve / close / delete) and settles the specification
claims against them.

Strings are modelled as `List Char`; the Python string operations used
by the source (`split`, `split(sep, 1)`, `in`, `int()`, `str()`,
`dict(...)` over key/value pairs) are modelled by executable functions
with Python semantics.  Operations that can raise return `Except PyErr`.
-/

set_option maxHeartbeats 1000000

namespace Newbot

/-- Python exception classes that the modelled code can raise. -/
inductive PyErr where
  | valueError
  | osError
  deriving DecidableEq, Repr

/-- Decidable equality of modelled computations, so that concrete runs
can be checked by `decide`. -/
instance exceptDecEq {ε α : Type} [DecidableEq ε] [DecidableEq α] :
    DecidableEq (Except ε α)
  | .error e1, .error e2 =>
    if h : e1 = e2 then isTrue (h ▸ rfl)
    else isFalse (fun hh => h (Except.error.inj hh))
  | .error _, .ok _ => isFalse (fun hh => Except.noConfusion hh)
  | .ok _, .error _ => isFalse (fun hh => Except.noConfusion hh)
  | .ok a1, .ok a2 =>
    if h : a1 = a2 then isTrue (h ▸ rfl)
    else isFalse (fun hh => h (Except.ok.inj hh))

/-- Python strings, modelled as lists of characters. -/
abbrev Str := List Char

/-- Python `s.split(sep)` for a single-character separator: splits at every
occurrence, keeping empty segments; `"".split(sep) = [""]`. -/
def pySplit (sep : Char) : Str → List Str
  | [] => [[]]
  | c :: cs =>
    if c = sep then [] :: pySplit sep cs
    else
      match pySplit sep cs with
      | t :: ts => (c :: t) :: ts
      | [] => [[c]]

/-- Python `s.split(sep, 1)`: split at the first occurrence only. -/
def pySplit1 (sep : Char) : Str → List Str
  | [] => [[]]
  | c :: cs =>
    if c = sep then [[], cs]
    else
      match pySplit1 sep cs with
      | t :: ts => (c :: t) :: ts
      | [] => [[c]]

/-- Prepend a character to the first segment of a split result. -/
def consHead (c : Char) : List Str → List Str
  | t :: ts => (c :: t) :: ts
  | [] => [[c]]

/-- Python `s.split("; ")` (the two-character separator used by
`cogs/coaching.py`): a left-to-right non-overlapping scan. -/
def pySplitSemiSp : Str → List Str
  | [] => [[]]
  | [c] => [[c]]
  | c :: c2 :: cs =>
    if c = ';' ∧ c2 = ' ' then [] :: pySplitSemiSp cs
    else consHead c (pySplitSemiSp (c2 :: cs))

/-- Boolean "needle is a leading segment of haystack". -/
def leadsStr : Str → Str → Bool
  | [], _ => true
  | _ :: _, [] => false
  | a :: as, b :: bs => a = b && leadsStr as bs

/-- Python `needle in haystack` (substring containment). -/
def containsSub (needle : Str) : Str → Bool
  | [] => needle.isEmpty
  | c :: cs => leadsStr needle (c :: cs) || containsSub needle cs

/-- Python `"=" in p` for a single segment. -/
def hasEq : Str → Bool
  | [] => false
  | c :: cs => c = '=' || hasEq cs

/-- ASCII decimal digit test. -/
def isDigitCh (c : Char) : Bool := '0' ≤ c && c ≤ '9'

/-- The decimal digit character for a value `0..9`. -/
def digitChar : Nat → Char
  | 0 => '0'
  | 1 => '1'
  | 2 => '2'
  | 3 => '3'
  | 4 => '4'
  | 5 => '5'
  | 6 => '6'
  | 7 => '7'
  | 8 => '8'
  | _ => '9'

/-- Numeric value of a digit character. -/
def digitVal (c : Char) : Nat := c.toNat - 48

/-- Fuelled little-endian digit extraction (the fuel keeps the recursion
structural so that terms reduce definitionally). -/
def digitsRevAux : Nat → Nat → List Nat
  | _, 0 => []
  | 0, _ + 1 => []
  | fuel + 1, n + 1 => ((n + 1) % 10) :: digitsRevAux fuel ((n + 1) / 10)

/-- Little-endian decimal digits of a natural number (empty for 0). -/
def digitsRev (n : Nat) : List Nat := digitsRevAux n n

theorem digitsRevAux_congr :
    ∀ n fuel1 fuel2, n ≤ fuel1 → n ≤ fuel2 →
      digitsRevAux fuel1 n = digitsRevAux fuel2 n := by
  intro n
  induction n using Nat.strong_induction_on with
  | _ n ih =>
    intro fuel1 fuel2 h1 h2
    match n, fuel1, fuel2 with
    | 0, f1, f2 => cases f1 <;> cases f2 <;> rfl
    | m + 1, f1 + 1, f2 + 1 =>
      show ((m + 1) % 10) :: digitsRevAux f1 ((m + 1) / 10)
        = ((m + 1) % 10) :: digitsRevAux f2 ((m + 1) / 10)
      have hd : (m + 1) / 10 < m + 1 := Nat.div_lt_self (by omega) (by omega)
      rw [ih ((m + 1) / 10) hd f1 f2 (by omega) (by omega)]

/-- The recursive unfolding of `digitsRev`. -/
theorem digitsRev_eq (n : Nat) :
    digitsRev n = if n = 0 then [] else (n % 10) :: digitsRev (n / 10) := by
  unfold digitsRev
  match n with
  | 0 => rfl
  | m + 1 =>
    show ((m + 1) % 10) :: digitsRevAux m ((m + 1) / 10) = _
    rw [if_neg (Nat.succ_ne_zero m)]
    have hd : (m + 1) / 10 < m + 1 := Nat.div_lt_self (by omega) (by omega)
    rw [digitsRevAux_congr ((m + 1) / 10) m ((m + 1) / 10) (by omega) le_rfl]

/-- Python `str(n)` for a non-negative integer. -/
def natToStr (n : Nat) : Str :=
  if n = 0 then ['0'] else ((digitsRev n).reverse.map digitChar)

/-- Python `int(s)` restricted to plain decimal strings: raises `ValueError`
on empty input or any non-digit character (as the CPython call does). -/
def pyIntNat (s : Str) : Except PyErr Nat :=
  if s ≠ [] ∧ s.all isDigitCh then
    .ok (s.foldl (fun a c => a * 10 + digitVal c) 0)
  else .error .valueError

/-- Python `dict(pairs)` over a list of split results: raises `ValueError`
unless every element is an exact key/value pair. -/
def pyDict : List (List Str) → Except PyErr (List (Str × Str))
  | [] => .ok []
  | [k, v] :: ls => (pyDict ls).map (fun d => (k, v) :: d)
  | _ :: _ => .error .valueError

/-- Python `d.get(k)` where later bindings override earlier ones (the
value of the last pair carrying `k`, as `dict(...)` keeps it). -/
def dictGet (k : Str) : List (Str × Str) → Option Str
  | [] => none
  | (k', v) :: d =>
    match dictGet k d with
    | some w => some w
    | none => if k' = k then some v else none

/-! ### Lemmas about the string model -/

theorem pySplit_no_sep {sep : Char} {a : Str} (h : sep ∉ a) :
    pySplit sep a = [a] := by
  induction a with
  | nil => rfl
  | cons c cs ih =>
    have hc : c ≠ sep := fun hcs => h (hcs ▸ List.mem_cons_self c cs)
    have hcs : sep ∉ cs := fun hm => h (List.mem_cons_of_mem c hm)
    simp [pySplit, hc, ih hcs]

theorem pySplit_cons_sep {sep : Char} {a r : Str} (h : sep ∉ a) :
    pySplit sep (a ++ sep :: r) = a :: pySplit sep r := by
  induction a with
  | nil => simp [pySplit]
  | cons c cs ih =>
    have hc : c ≠ sep := fun hcs => h (hcs ▸ List.mem_cons_self c cs)
    have hcs : sep ∉ cs := fun hm => h (List.mem_cons_of_mem c hm)
    simp [pySplit, hc, ih hcs]

theorem pySplit1_pair {k v : Str} (h : '=' ∉ k) :
    pySplit1 '=' (k ++ '=' :: v) = [k, v] := by
  induction k with
  | nil => simp [pySplit1]
  | cons c cs ih =>
    have hc : c ≠ '=' := fun hcs => h (hcs ▸ List.mem_cons_self c cs)
    have hcs : '=' ∉ cs := fun hm => h (List.mem_cons_of_mem c hm)
    simp [pySplit1, hc, ih hcs]

theorem leadsStr_append (a r : Str) : leadsStr a (a ++ r) = true := by
  induction a with
  | nil => rfl
  | cons c cs ih => simp [leadsStr, ih]

theorem containsSub_of_leads {n h : Str} (hne : h ≠ [])
    (hl : leadsStr n h = true) : containsSub n h = true := by
  cases h with
  | nil => exact absurd rfl hne
  | cons c cs => simp [containsSub, hl]

theorem containsSub_append_self (a r : Str) (ha : a ≠ []) :
    containsSub a (a ++ r) = true := by
  apply containsSub_of_leads
  · cases a with
    | nil => exact absurd rfl ha
    | cons c cs => simp
  · exact leadsStr_append a r

theorem digitsRev_lt (n : Nat) : ∀ d ∈ digitsRev n, d < 10 := by
  induction n using Nat.strong_induction_on with
  | _ n ih =>
    intro d hd
    rw [digitsRev_eq] at hd
    by_cases h : n = 0
    · simp [h] at hd
    · simp [h] at hd
      rcases hd with h1 | h2
      · omega
      · exact ih (n / 10) (Nat.div_lt_self (Nat.pos_of_ne_zero h) (by omega)) d h2

theorem isDigitCh_digitChar {d : Nat} (h : d < 10) :
    isDigitCh (digitChar d) = true := by
  interval_cases d <;> decide

theorem digitVal_digitChar {d : Nat} (h : d < 10) :
    digitVal (digitChar d) = d := by
  interval_cases d <;> decide

theorem natToStr_all_digits (n : Nat) : ∀ c ∈ natToStr n, isDigitCh c = true := by
  intro c hc
  unfold natToStr at hc
  by_cases h : n = 0
  · simp [h] at hc
    simp [hc]; decide
  · simp [h] at hc
    obtain ⟨d, hd, hdc⟩ := hc
    exact hdc ▸ isDigitCh_digitChar (digitsRev_lt n d hd)

theorem not_mem_natToStr_of_not_digit {c : Char} (hc : isDigitCh c = false)
    (n : Nat) : c ∉ natToStr n := by
  intro hm
  have := natToStr_all_digits n c hm
  rw [hc] at this
  exact Bool.false_ne_true this

theorem pipe_not_mem_natToStr (n : Nat) : '|' ∉ natToStr n :=
  not_mem_natToStr_of_not_digit (by decide) n

theorem eq_not_mem_natToStr (n : Nat) : '=' ∉ natToStr n :=
  not_mem_natToStr_of_not_digit (by decide) n

theorem natToStr_ne_nil (n : Nat) : natToStr n ≠ [] := by
  unfold natToStr
  by_cases h : n = 0
  · simp [h]
  · simp [h]
    rw [digitsRev_eq]
    simp [h]

theorem foldl_digitsRev (n : Nat) :
    ∀ a : Nat, ((digitsRev n).reverse.map digitChar).foldl
      (fun a c => a * 10 + digitVal c) a
      = a * 10 ^ (digitsRev n).length + n := by
  induction n using Nat.strong_induction_on with
  | _ n ih =>
    intro a
    rw [digitsRev_eq]
    by_cases h : n = 0
    · simp [h]
    · have hlt : n / 10 < n := Nat.div_lt_self (Nat.pos_of_ne_zero h) (by omega)
      have hrec := ih (n / 10) hlt
      simp only [h, if_false]
      rw [List.reverse_cons, List.map_append, List.foldl_append, hrec a]
      simp only [List.map_cons, List.map_nil, List.foldl_cons, List.foldl_nil,
        List.length_cons]
      rw [digitVal_digitChar (Nat.mod_lt n (by omega))]
      rw [pow_succ]
      have := Nat.div_add_mod n 10
      ring_nf
      omega

theorem pyIntNat_natToStr (n : Nat) : pyIntNat (natToStr n) = .ok n := by
  unfold pyIntNat
  have hne : natToStr n ≠ [] := natToStr_ne_nil n
  have hall : (natToStr n).all isDigitCh = true :=
    List.all_eq_true.mpr (natToStr_all_digits n)
  simp only [hne, hall, ne_eq, not_false_eq_true, and_self, if_pos]
  congr 1
  unfold natToStr
  by_cases h : n = 0
  · simp [h]; decide
  · simp only [h, if_false]
    have := foldl_digitsRev n 0
    simpa using this

/-! ### The `newbot.py` ticket-state codec (`meta_pack` / `meta_unpack`) -/

/-- Decoded ticket metadata (`meta_unpack`'s dictionary in `newbot.py`). -/
structure Meta where
  panel : Option Nat
  ticket : Option Nat
  opener : Option Nat
  claimer : Option Nat
  deriving DecidableEq, Repr

/-- The all-unset dictionary `meta_unpack` starts from. -/
def Meta.unset : Meta := ⟨none, none, none, none⟩

/-- The string `meta_pack` interpolates for the claimer field: a falsy
(`None` or `0`) claimer renders as the literal `none`. -/
def claimerVal (claimer : Option Nat) : Str :=
  match claimer with
  | some c => if c = 0 then "none".data else natToStr c
  | none => "none".data

/-- `newbot.py` `meta_pack`: renders
`ticket_meta|panel=..|ticket=..|opener=..|claimer=..`. -/
def meta_pack (panel ticket opener : Nat) (claimer : Option Nat) : Str :=
  "ticket_meta".data ++ '|' ::
  (("panel".data ++ '=' :: natToStr panel) ++ '|' ::
   (("ticket".data ++ '=' :: natToStr ticket) ++ '|' ::
    (("opener".data ++ '=' :: natToStr opener) ++ '|' ::
     ("claimer".data ++ '=' :: claimerVal claimer))))

/-- `int(parts.get(k)) if parts.get(k) else None`: a missing key or an
empty value gives `None`; otherwise `int` runs (and can raise). -/
def intFieldE (parts : List (Str × Str)) (k : Str) : Except PyErr (Option Nat) :=
  match dictGet k parts with
  | none => .ok none
  | some v => if v = [] then .ok none else (pyIntNat v).map some

/-- The `claimer` branch of `meta_unpack`:
`None if cl in (None, "none") else int(cl)`. -/
def claimerFieldE (parts : List (Str × Str)) : Except PyErr (Option Nat) :=
  match dictGet "claimer".data parts with
  | none => .ok none
  | some v => if v = "none".data then .ok none else (pyIntNat v).map some

/-- The `try:` body of `meta_unpack`, with the bare `except: pass`
modelled exactly: if a step raises, the fields already assigned are kept
and the later ones stay unset. -/
def meta_unpack_body (t : Str) : Meta :=
  match pyDict (((pySplit '|' t).drop 1).map (pySplit1 '=')) with
  | .error _ => Meta.unset
  | .ok parts =>
    match intFieldE parts "panel".data with
    | .error _ => Meta.unset
    | .ok p =>
      match intFieldE parts "ticket".data with
      | .error _ => ⟨p, none, none, none⟩
      | .ok tk =>
        match intFieldE parts "opener".data with
        | .error _ => ⟨p, tk, none, none⟩
        | .ok o =>
          match claimerFieldE parts with
          | .error _ => ⟨p, tk, o, none⟩
          | .ok c => ⟨p, tk, o, c⟩

/-- `newbot.py` `meta_unpack`.  The `Except` return type records that its
body contains raising operations; the bare `except` makes every path
return `ok`, which `meta_unpack_total` proves. -/
def meta_unpack (topic : Option Str) : Except PyErr Meta :=
  match topic with
  | none => .ok Meta.unset
  | some t =>
    if containsSub "ticket_meta".data t then .ok (meta_unpack_body t)
    else .ok Meta.unset

/-- The decoded metadata as seen by the callers of `meta_unpack` (which,
in Python, never observe an exception from it). -/
def metaOf (topic : Option Str) : Meta :=
  match meta_unpack topic with
  | .ok m => m
  | .error _ => Meta.unset

/-! ### Round trip of the `newbot.py` codec -/

theorem natToStr_ne_noneLit (c : Nat) : natToStr c ≠ "none".data := by
  intro h
  have : 'n' ∈ natToStr c := by rw [h]; decide
  have := natToStr_all_digits c 'n' this
  revert this; decide

theorem claimerVal_nonzero {claimer : Option Nat} (hc : claimer ≠ some 0) :
    claimer = none ∨ ∃ c, claimer = some c ∧ claimerVal claimer = natToStr c := by
  match claimer with
  | none => exact Or.inl rfl
  | some c =>
    refine Or.inr ⟨c, rfl, ?_⟩
    have : c ≠ 0 := fun h => hc (by rw [h])
    simp [claimerVal, this]

theorem pipe_not_mem_seg {k : Str} (hk : '|' ∉ k) {v : Str} (hv : '|' ∉ v) :
    '|' ∉ k ++ '=' :: v := by
  intro hm
  rcases List.mem_append.mp hm with h | h
  · exact hk h
  · rcases List.mem_cons.mp h with h | h
    · exact absurd h (by decide)
    · exact hv h

theorem meta_pack_split (panel ticket opener : Nat) (claimer : Option Nat) :
    pySplit '|' (meta_pack panel ticket opener claimer) =
      ["ticket_meta".data,
       "panel".data ++ '=' :: natToStr panel,
       "ticket".data ++ '=' :: natToStr ticket,
       "opener".data ++ '=' :: natToStr opener,
       "claimer".data ++ '=' :: claimerVal claimer] := by
  have hcv : '|' ∉ claimerVal claimer := by
    rcases claimer with _ | c
    · decide
    · by_cases hc0 : c = 0
      · simp only [claimerVal, hc0, reduceIte]; decide
      · simp only [claimerVal, hc0, reduceIte]
        exact pipe_not_mem_natToStr c
  unfold meta_pack
  rw [pySplit_cons_sep (a := "ticket_meta".data) (by decide),
      pySplit_cons_sep (a := "panel".data ++ '=' :: natToStr panel)
        (pipe_not_mem_seg (by decide) (pipe_not_mem_natToStr panel)),
      pySplit_cons_sep (a := "ticket".data ++ '=' :: natToStr ticket)
        (pipe_not_mem_seg (by decide) (pipe_not_mem_natToStr ticket)),
      pySplit_cons_sep (a := "opener".data ++ '=' :: natToStr opener)
        (pipe_not_mem_seg (by decide) (pipe_not_mem_natToStr opener)),
      pySplit_no_sep (a := "claimer".data ++ '=' :: claimerVal claimer)
        (pipe_not_mem_seg (by decide) hcv)]

/-- Round trip of `meta_pack`/`meta_unpack` for tickets whose claimer is
not the falsy id `0` (a `0` claimer is rendered as `none` by
`meta_pack` and therefore does not survive the round trip). -/
theorem meta_roundtrip (panel ticket opener : Nat) (claimer : Option Nat)
    (hc : claimer ≠ some 0) :
    meta_unpack (some (meta_pack panel ticket opener claimer)) =
      .ok ⟨some panel, some ticket, some opener, claimer⟩ := by
  have hsub : containsSub "ticket_meta".data
      (meta_pack panel ticket opener claimer) = true := by
    unfold meta_pack
    exact containsSub_append_self _ _ (by decide)
  simp only [meta_unpack, hsub, if_true]
  unfold meta_unpack_body
  rw [meta_pack_split]
  simp only [List.drop_succ_cons, List.drop_zero, List.map_cons, List.map_nil]
  rw [pySplit1_pair (k := "panel".data) (by decide),
      pySplit1_pair (k := "ticket".data) (by decide),
      pySplit1_pair (k := "opener".data) (by decide),
      pySplit1_pair (k := "claimer".data) (by decide)]
  set P : List (Str × Str) :=
    [("panel".data, natToStr panel), ("ticket".data, natToStr ticket),
     ("opener".data, natToStr opener), ("claimer".data, claimerVal claimer)]
    with hP
  have hd : pyDict [["panel".data, natToStr panel],
      ["ticket".data, natToStr ticket], ["opener".data, natToStr opener],
      ["claimer".data, claimerVal claimer]] = .ok P := by
    rw [hP]
    rfl
  have h1 : intFieldE P "panel".data = .ok (some panel) := by
    show (if natToStr panel = [] then Except.ok none
      else (pyIntNat (natToStr panel)).map some) = Except.ok (some panel)
    rw [if_neg (natToStr_ne_nil panel), pyIntNat_natToStr]
    rfl
  have h2 : intFieldE P "ticket".data = .ok (some ticket) := by
    show (if natToStr ticket = [] then Except.ok none
      else (pyIntNat (natToStr ticket)).map some) = Except.ok (some ticket)
    rw [if_neg (natToStr_ne_nil ticket), pyIntNat_natToStr]
    rfl
  have h3 : intFieldE P "opener".data = .ok (some opener) := by
    show (if natToStr opener = [] then Except.ok none
      else (pyIntNat (natToStr opener)).map some) = Except.ok (some opener)
    rw [if_neg (natToStr_ne_nil opener), pyIntNat_natToStr]
    rfl
  have h4 : claimerFieldE P = .ok claimer := by
    show (if claimerVal claimer = "none".data then Except.ok none
      else (pyIntNat (claimerVal claimer)).map some) = Except.ok claimer
    rcases claimerVal_nonzero hc with h | ⟨c, hcl, hval⟩
    · subst h
      rfl
    · rw [hval, if_neg (natToStr_ne_noneLit c), pyIntNat_natToStr, hcl]
      rfl
  simp only [hd, h1, h2, h3, h4]

/-! ### The `coachbot.py` application codec (`topic_pack` / `topic_unpack`) -/

/-- Decoded coach-application metadata (`topic_unpack`'s dictionary in
`coachbot.py`); every field is kept as a raw string. -/
structure CoachMeta where
  opener : Option Str
  created : Option Str
  submitted : Option Str
  smsg : Option Str
  approved : Option Str
  entry : Option Str
  deriving DecidableEq, Repr

/-- The all-unset dictionary `topic_unpack` starts from. -/
def CoachMeta.unset : CoachMeta := ⟨none, none, none, none, none, none⟩

/-- `x if x else 'none'` for an optional string field of `topic_pack`
(a falsy value, `None` or the empty string, renders as `none`). -/
def optStrVal : Option Str → Str
  | some s => if s = [] then "none".data else s
  | none => "none".data

/-- `x if x else 'none'` for an optional integer field of `topic_pack`
(a falsy value, `None` or `0`, renders as `none`). -/
def optNatVal : Option Nat → Str
  | some k => if k = 0 then "none".data else natToStr k
  | none => "none".data

/-- `coachbot.py` `topic_pack`: renders
`coach_app|opener=..|created=..|submitted=..|smsg=..|approved=..|entry=..`. -/
def topic_pack (opener : Nat) (created : Str) (submitted : Option Str)
    (smsg : Option Nat) (approved : Option Str) (entry : Option Nat) : Str :=
  "coach_app".data ++ '|' ::
  (("opener".data ++ '=' :: natToStr opener) ++ '|' ::
   (("created".data ++ '=' :: created) ++ '|' ::
    (("submitted".data ++ '=' :: optStrVal submitted) ++ '|' ::
     (("smsg".data ++ '=' :: optNatVal smsg) ++ '|' ::
      (("approved".data ++ '=' :: optStrVal approved) ++ '|' ::
       ("entry".data ++ '=' :: optNatVal entry))))))

/-- `None if kv.get(k) in (None, 'none') else kv.get(k)`. -/
def noneFilter : Option Str → Option Str
  | some s => if s = "none".data then none else some s
  | none => none

/-- The `try:` body of `topic_unpack`; only the `dict(...)` construction
can raise, in which case the bare `except` leaves every field unset. -/
def topic_unpack_body (t : Str) : CoachMeta :=
  match pyDict (((pySplit '|' t).drop 1).map (pySplit1 '=')) with
  | .error _ => CoachMeta.unset
  | .ok kv =>
    { opener := dictGet "opener".data kv
      created := dictGet "created".data kv
      submitted := noneFilter (dictGet "submitted".data kv)
      smsg := noneFilter (dictGet "smsg".data kv)
      approved := noneFilter (dictGet "approved".data kv)
      entry := noneFilter (dictGet "entry".data kv) }

/-- `coachbot.py` `topic_unpack`. -/
def topic_unpack (topic : Option Str) : Except PyErr CoachMeta :=
  match topic with
  | none => .ok CoachMeta.unset
  | some t =>
    if containsSub "coach_app".data t then .ok (topic_unpack_body t)
    else .ok CoachMeta.unset

theorem pipe_not_mem_optStrVal {x : Option Str}
    (hx : ∀ s, x = some s → '|' ∉ s) : '|' ∉ optStrVal x := by
  rcases x with _ | s
  · decide
  · by_cases h : s = []
    · simp only [optStrVal, h, reduceIte]; decide
    · simp only [optStrVal, h, reduceIte]
      exact hx s rfl

theorem pipe_not_mem_optNatVal (x : Option Nat) : '|' ∉ optNatVal x := by
  rcases x with _ | k
  · decide
  · by_cases h : k = 0
    · simp only [optNatVal, h, reduceIte]; decide
    · simp only [optNatVal, h, reduceIte]
      exact pipe_not_mem_natToStr k

theorem noneFilter_optStrVal {x : Option Str}
    (hx : ∀ s, x = some s → s ≠ [] ∧ s ≠ "none".data) :
    noneFilter (some (optStrVal x)) = x := by
  rcases x with _ | s
  · rfl
  · obtain ⟨h1, h2⟩ := hx s rfl
    simp [optStrVal, noneFilter, h1, h2]

theorem noneFilter_optNatVal {x : Option Nat} (hx : x ≠ some 0) :
    noneFilter (some (optNatVal x)) = x.map natToStr := by
  rcases x with _ | k
  · rfl
  · have hk : k ≠ 0 := fun h => hx (by rw [h])
    simp [optNatVal, noneFilter, hk, natToStr_ne_noneLit k]

theorem topic_pack_split (opener : Nat) (created : Str) (submitted : Option Str)
    (smsg : Option Nat) (approved : Option Str) (entry : Option Nat)
    (hcr : '|' ∉ created)
    (hs : ∀ s, submitted = some s → '|' ∉ s)
    (ha : ∀ s, approved = some s → '|' ∉ s) :
    pySplit '|' (topic_pack opener created submitted smsg approved entry) =
      ["coach_app".data,
       "opener".data ++ '=' :: natToStr opener,
       "created".data ++ '=' :: created,
       "submitted".data ++ '=' :: optStrVal submitted,
       "smsg".data ++ '=' :: optNatVal smsg,
       "approved".data ++ '=' :: optStrVal approved,
       "entry".data ++ '=' :: optNatVal entry] := by
  unfold topic_pack
  rw [pySplit_cons_sep (a := "coach_app".data) (by decide),
      pySplit_cons_sep (a := "opener".data ++ '=' :: natToStr opener)
        (pipe_not_mem_seg (by decide) (pipe_not_mem_natToStr opener)),
      pySplit_cons_sep (a := "created".data ++ '=' :: created)
        (pipe_not_mem_seg (by decide) hcr),
      pySplit_cons_sep (a := "submitted".data ++ '=' :: optStrVal submitted)
        (pipe_not_mem_seg (by decide) (pipe_not_mem_optStrVal hs)),
      pySplit_cons_sep (a := "smsg".data ++ '=' :: optNatVal smsg)
        (pipe_not_mem_seg (by decide) (pipe_not_mem_optNatVal smsg)),
      pySplit_cons_sep (a := "approved".data ++ '=' :: optStrVal approved)
        (pipe_not_mem_seg (by decide) (pipe_not_mem_optStrVal ha)),
      pySplit_no_sep (a := "entry".data ++ '=' :: optNatVal entry)
        (pipe_not_mem_seg (by decide) (pipe_not_mem_optNatVal entry))]

/-- Round trip of `topic_pack`/`topic_unpack`: the decoder returns the raw
string renderings, so numeric fields come back as decimal strings; falsy
optional fields (`0`, `""`, the literal string `none`) and a `|` inside a
timestamp do not survive, hence the side conditions. -/
theorem topic_roundtrip (opener : Nat) (created : Str) (submitted : Option Str)
    (smsg : Option Nat) (approved : Option Str) (entry : Option Nat)
    (hcr : '|' ∉ created)
    (hs : ∀ s, submitted = some s → '|' ∉ s ∧ s ≠ [] ∧ s ≠ "none".data)
    (ha : ∀ s, approved = some s → '|' ∉ s ∧ s ≠ [] ∧ s ≠ "none".data)
    (hm : smsg ≠ some 0) (he : entry ≠ some 0) :
    topic_unpack (some (topic_pack opener created submitted smsg approved entry)) =
      .ok ⟨some (natToStr opener), some created, submitted,
           smsg.map natToStr, approved, entry.map natToStr⟩ := by
  have hsub : containsSub "coach_app".data
      (topic_pack opener created submitted smsg approved entry) = true := by
    unfold topic_pack
    exact containsSub_append_self _ _ (by decide)
  simp only [topic_unpack, hsub, if_true]
  unfold topic_unpack_body
  rw [topic_pack_split opener created submitted smsg approved entry hcr
    (fun s h => (hs s h).1) (fun s h => (ha s h).1)]
  simp only [List.drop_succ_cons, List.drop_zero, List.map_cons, List.map_nil]
  rw [pySplit1_pair (k := "opener".data) (by decide),
      pySplit1_pair (k := "created".data) (by decide),
      pySplit1_pair (k := "submitted".data) (by decide),
      pySplit1_pair (k := "smsg".data) (by decide),
      pySplit1_pair (k := "approved".data) (by decide),
      pySplit1_pair (k := "entry".data) (by decide)]
  set KV : List (Str × Str) :=
    [("opener".data, natToStr opener), ("created".data, created),
     ("submitted".data, optStrVal submitted), ("smsg".data, optNatVal smsg),
     ("approved".data, optStrVal approved), ("entry".data, optNatVal entry)]
    with hKV
  have hd : pyDict [["opener".data, natToStr opener], ["created".data, created],
      ["submitted".data, optStrVal submitted], ["smsg".data, optNatVal smsg],
      ["approved".data, optStrVal approved], ["entry".data, optNatVal entry]]
      = .ok KV := by
    rw [hKV]
    rfl
  have g1 : dictGet "opener".data KV = some (natToStr opener) := rfl
  have g2 : dictGet "created".data KV = some created := rfl
  have g3 : dictGet "submitted".data KV = some (optStrVal submitted) := rfl
  have g4 : dictGet "smsg".data KV = some (optNatVal smsg) := rfl
  have g5 : dictGet "approved".data KV = some (optStrVal approved) := rfl
  have g6 : dictGet "entry".data KV = some (optNatVal entry) := rfl
  simp only [hd, g1, g2, g3, g4, g5, g6,
    noneFilter_optStrVal (fun s h => ⟨(hs s h).2.1, (hs s h).2.2⟩),
    noneFilter_optStrVal (fun s h => ⟨(ha s h).2.1, (ha s h).2.2⟩),
    noneFilter_optNatVal hm, noneFilter_optNatVal he]

/-! ### The raw `key=value` parses in `cogs/coaching.py` -/

/-- The inline dictionary comprehension in `cogs/coaching.py`
`TicketView.claim`:
`{k: v for k, v in (p.split("=") for p in topic.split("; ") if "=" in p)}`.
Unlike `_extract_kv` it is not wrapped in a `try`, and `p.split("=")` is
unbounded, so a segment with two `=` raises `ValueError` to the caller. -/
def coachingClaimParts (topic : Str) : Except PyErr (List (Str × Str)) :=
  pyDict (((pySplitSemiSp topic).filter hasEq).map (pySplit '='))

/-- `cogs/coaching.py` `TicketView._extract_kv`: the same parse wrapped in
`try/except` returning `None` on failure. -/
def extract_kv (topic : Option Str) (key : Str) : Option Str :=
  match topic with
  | none => none
  | some t =>
    match coachingClaimParts t with
    | .error _ => none
    | .ok parts => dictGet key parts

/-! ### Claim transitions (`newbot.py` and `cogs/ticketing.py`) -/

/-- Python truthiness of the decoded `claimer` field: `None` and `0` are
falsy. -/
def truthyNat : Option Nat → Option Nat
  | some c => if c = 0 then none else some c
  | none => none

/-- `newbot.py` `user_has_panel_permission`: Manage-Channels members or
holders of any of the panel's handler roles. -/
def user_has_panel_permission (manageChannels : Bool)
    (memberRoles panelRoles : List Nat) : Bool :=
  manageChannels || memberRoles.any (fun r => panelRoles.contains r)

/-- Outcomes of `newbot.py` `TicketControlsView.claim`. -/
inductive ClaimRes where
  | missingMeta
  | notAllowed
  | alreadyClaimed (claimer : Nat)
  | claimed
  deriving DecidableEq, Repr

/-- The guarded-commit phase of `newbot.py` `TicketControlsView.claim`: the
guards and the committed topic are computed from the metadata captured by
an earlier read (`meta = meta_unpack(channel.topic)`), not re-validated
against the current topic — the handler `await`s between the read and the
`channel.edit` write. -/
def newbotClaimStep (meta : Meta) (actor : Nat) (manageChannels : Bool)
    (memberRoles panelRoles : List Nat) (topic : Option Str) :
    ClaimRes × Option Str :=
  match meta.panel with
  | none => (.missingMeta, topic)
  | some p =>
    if ¬ user_has_panel_permission manageChannels memberRoles panelRoles then
      (.notAllowed, topic)
    else
      match truthyNat meta.claimer with
      | some c => (.alreadyClaimed c, topic)
      | none =>
        (.claimed,
         some (meta_pack p (meta.ticket.getD 0) (meta.opener.getD 0) (some actor)))

/-- `newbot.py` `TicketControlsView.claim` run atomically: read the topic,
then guard and commit against that same read. -/
def newbotClaim (topic : Option Str) (actor : Nat) (manageChannels : Bool)
    (memberRoles panelRoles : List Nat) : ClaimRes × Option Str :=
  newbotClaimStep (metaOf topic) actor manageChannels memberRoles panelRoles topic

/-- Per-channel metadata stored by `cogs/ticketing.py` in
`self.cog.channel_meta`. -/
structure ChanMeta where
  ticket_number : Nat
  opener_id : Nat
  claimer_id : Option Nat
  deriving DecidableEq, Repr

/-- Outcomes of `cogs/ticketing.py` `TicketChannelView.claim`. -/
inductive TClaimRes where
  | notInRoster
  | claimed
  deriving DecidableEq, Repr

/-- `cogs/ticketing.py` `TicketChannelView.claim`: any roster member may
claim; the stored `claimer_id` is overwritten unconditionally — there is
no already-claimed guard. -/
def ticketingClaim (roster : List Nat) (meta : ChanMeta) (actor : Nat) :
    TClaimRes × ChanMeta :=
  if ¬ roster.contains actor then (.notInRoster, meta)
  else (.claimed, { meta with claimer_id := some actor })

/-! ### Opening tickets (`newbot.py` and `cogs/ticketing.py`) -/

/-- Per-guild ticket state of `newbot.py`: the configured panels (panel id
and whether its category still resolves) and the single per-guild
`next_ticket_seq` counter shared by every panel. -/
structure NGuild where
  panels : List (Nat × Bool)
  next_ticket_seq : Nat
  deriving DecidableEq, Repr

/-- `g["panels"].get(str(panel_id))`. -/
def panelLookup (g : NGuild) (pid : Nat) : Option Bool :=
  (g.panels.find? (fun kv => kv.1 = pid)).map (·.2)

/-- Failures of the open transition. -/
inductive OpenErr where
  | panelNotConfigured
  | categoryUnavailable
  | alreadyOpen
  deriving DecidableEq, Repr

/-- The duplicate-ticket scan of `newbot.py` `OpenPanelView.open_ticket`:
some guild text channel decodes to this panel and opener. -/
def holdsTicket (chans : List (Option Str)) (pid user : Nat) : Bool :=
  chans.any (fun t => (metaOf t).panel = some pid && (metaOf t).opener = some user)

/-- Tickets currently held by `(pid, user)` among the guild's channels. -/
def ticketCount (chans : List (Option Str)) (pid user : Nat) : Nat :=
  (chans.filter
    (fun t => (metaOf t).panel = some pid && (metaOf t).opener = some user)).length

/-- `newbot.py` `OpenPanelView.open_ticket`: panel and category guards,
then the one-ticket-per-user-per-panel scan, then allocation from the
per-guild counter and creation of the channel with packed topic. -/
def open_ticket (g : NGuild) (chans : List (Option Str)) (pid user : Nat) :
    Except OpenErr (NGuild × List (Option Str) × Nat) :=
  match panelLookup g pid with
  | none => .error .panelNotConfigured
  | some catOk =>
    if ¬ catOk then .error .categoryUnavailable
    else if holdsTicket chans pid user then .error .alreadyOpen
    else
      .ok ({ g with next_ticket_seq := g.next_ticket_seq + 1 },
           chans ++ [some (meta_pack pid g.next_ticket_seq user none)],
           g.next_ticket_seq)

/-- Per-guild state of one `cogs/ticketing.py` panel: whether the panel
and its category resolve, and the guild-wide `ticket_counter`. -/
structure TGuild where
  panelExists : Bool
  categoryOk : Bool
  ticket_counter : Nat
  deriving DecidableEq, Repr

/-- `cogs/ticketing.py` `TicketPanelView.open_ticket`: allocates and
creates unconditionally — it never scans for an existing ticket of the
same requester, so no `AlreadyOpen` outcome exists.  The channel-meta
list records `(ticket_number, opener_id)` pairs. -/
def ticketingOpen (g : TGuild) (metas : List (Nat × Nat)) (user : Nat) :
    Except OpenErr (TGuild × List (Nat × Nat)) :=
  if ¬ g.panelExists then .error .panelNotConfigured
  else if ¬ g.categoryOk then .error .categoryUnavailable
  else
    .ok ({ g with ticket_counter := g.ticket_counter + 1 },
         metas ++ [(g.ticket_counter, user)])

/-! ### Closing and reopening (`cogs/ticketing.py`, `cogs/coaching.py`) -/

/-- A permission-overwrite target: a role or a member. -/
inductive OwTarget where
  | role (id : Nat)
  | member (id : Nat)
  deriving DecidableEq, Repr

/-- A tri-state `PermissionOverwrite` restricted to the two capabilities
the close transition manipulates. -/
structure Overwrite where
  view : Option Bool
  send : Option Bool
  deriving DecidableEq, Repr

/-- Outcomes of `cogs/ticketing.py` `TicketChannelView.close_ticket`. -/
inductive CloseRes where
  | onlyStaff
  | alreadyClosed
  | confirmed
  deriving DecidableEq, Repr

/-- The guard of `cogs/ticketing.py` `close_ticket`: administrators or
holders of the configured claim role only — the requester is not
consulted. -/
def ticketingClose (isAdmin hasClaimRole closed : Bool) : CloseRes :=
  if ¬ (isAdmin || hasClaimRole) then .onlyStaff
  else if closed then .alreadyClosed
  else .confirmed

/-- The guard of `cogs/ticketing.py` `reopen_ticket`: the ticket must be
closed, then administrators or claim-role holders only. -/
def ticketingReopen (isAdmin hasClaimRole closed : Bool) : CloseRes :=
  if ¬ closed then .alreadyClosed
  else if ¬ (isAdmin || hasClaimRole) then .onlyStaff
  else .confirmed

/-- One entry of `cogs/ticketing.py` `_lock_channel`: the claim role keeps
(or gains) `send_messages`; every other target with an explicit
`send_messages` overwrite has it set to `not lock`. -/
def lockEntry (claimRole : Option Nat) (lock : Bool) :
    OwTarget × Overwrite → OwTarget × Overwrite
  | (t, p) =>
    if (match claimRole, t with
        | some cr, .role rid => rid == cr
        | _, _ => false) then
      (t, { view := if p.view = some false then p.view else some true,
            send := some true })
    else if p.send ≠ none then (t, { p with send := some (!lock) })
    else (t, p)

/-- `cogs/ticketing.py` `_lock_channel`: map `lockEntry` over the
overwrites and append a fresh claim-role overwrite when none exists. -/
def lock_channel (ows : List (OwTarget × Overwrite)) (claimRole : Option Nat)
    (lock : Bool) : List (OwTarget × Overwrite) :=
  let mapped := ows.map (lockEntry claimRole lock)
  match claimRole with
  | some cr =>
    if ows.any (fun tp => tp.1 = OwTarget.role cr) then mapped
    else mapped ++ [(OwTarget.role cr, ⟨some true, some true⟩)]
  | none => mapped

/-- The guard of `cogs/coaching.py` `TicketView.close`: the opener (read
from the topic), a claim-role holder, or an administrator. -/
def coachingCloseAllowed (topic : Option Str) (actorId : Nat)
    (hasClaimRole isAdmin : Bool) : Bool :=
  (extract_kv topic "opener".data = some (natToStr actorId))
    || hasClaimRole || isAdmin

/-! ### Approval (`coachbot.py` and `noobbot.py`) -/

/-- Python truthiness of an optional decoded string field. -/
def truthyStr : Option Str → Bool
  | some s => ¬ s.isEmpty
  | none => false

/-- The decoded coach metadata as the callers of `topic_unpack` see it. -/
def coachMetaOf (topic : Option Str) : CoachMeta :=
  match topic_unpack topic with
  | .ok m => m
  | .error _ => CoachMeta.unset

/-- Outcomes of `coachbot.py` `CoachControlsView.approve`. -/
inductive ApproveRes where
  | adminsOnly
  | nothingToApprove
  | alreadyApproved
  | cantLoad
  | rosterNotConfigured
  | approved (entry : Nat)
  deriving DecidableEq, Repr

/-- `coachbot.py` `CoachControlsView.approve`.  Result: the outcome, the
new `next_entry_id` counter, the new topic, and the roster entries
published by this call.  `.error` models an exception escaping the
handler (the `int(meta.get("opener") or user.id)` parse is unguarded). -/
def coach_approve (adminOk fetchOk rosterOk : Bool) (topic : Option Str)
    (nowIso : Str) (actorId : Nat) (nextEntry : Nat) :
    Except PyErr (ApproveRes × Nat × Option Str × List Nat) :=
  if ¬ adminOk then .ok (.adminsOnly, nextEntry, topic, [])
  else
    let meta := coachMetaOf topic
    if ¬ (truthyStr meta.submitted && truthyStr meta.smsg) then
      .ok (.nothingToApprove, nextEntry, topic, [])
    else if truthyStr meta.approved && truthyStr meta.entry then
      .ok (.alreadyApproved, nextEntry, topic, [])
    else
      match (match meta.smsg with
             | some s => pyIntNat s
             | none => .error PyErr.valueError : Except PyErr Nat) with
      | .error _ => .ok (.cantLoad, nextEntry, topic, [])
      | .ok msgId =>
        if ¬ fetchOk then .ok (.cantLoad, nextEntry, topic, [])
        else if ¬ rosterOk then .ok (.rosterNotConfigured, nextEntry, topic, [])
        else
          match (match meta.opener with
                 | some s => if s.isEmpty then .ok actorId else pyIntNat s
                 | none => .ok actorId : Except PyErr Nat) with
          | .error e => .error e
          | .ok openerId =>
            let created := match meta.created with
              | some s => if s.isEmpty then nowIso else s
              | none => nowIso
            .ok (.approved nextEntry, nextEntry + 1,
                 some (topic_pack openerId created meta.submitted (some msgId)
                   (some nowIso) (some nextEntry)),
                 [nextEntry])

/-- Outcomes of `noobbot.py` `CoachControlsView.approve`. -/
inductive NRes where
  | adminsOnly
  | noRoster
  | noSubmitted
  | msgNotFound
  | approved
  deriving DecidableEq, Repr

/-- The field scan of `noobbot.py` `approve`: walk the `|`-separated
segments left to right; an `opener=` parse error propagates, a
`submitted=` parse error is swallowed (`except ValueError: pass`). -/
def noobParseFieldsGo : (Option Nat × Option Nat) → List Str →
    Except PyErr (Option Nat × Option Nat)
  | acc, [] => .ok acc
  | acc, p :: ps =>
    if leadsStr "opener=".data p then
      match pyIntNat ((pySplit '=' p).getD 1 []) with
      | .error e => .error e
      | .ok n => noobParseFieldsGo (some n, acc.2) ps
    else if leadsStr "submitted=".data p then
      match pyIntNat ((pySplit '=' p).getD 1 []) with
      | .error _ => noobParseFieldsGo acc ps
      | .ok n => noobParseFieldsGo (acc.1, some n) ps
    else noobParseFieldsGo acc ps

/-- The two topic fields `noobbot.py` `approve` extracts. -/
def noobParseFields (parts : List Str) : Except PyErr (Option Nat × Option Nat) :=
  noobParseFieldsGo (none, none) parts

/-- `noobbot.py` `CoachControlsView.approve`: no already-approved guard,
no entry-id allocation, and the topic is returned unchanged (the handler
never edits it); every successful call publishes to the roster again. -/
def noob_approve (adminOk rosterOk fetchOk : Bool) (topic : Str) :
    Except PyErr (NRes × Str) :=
  if ¬ adminOk then .ok (.adminsOnly, topic)
  else if ¬ rosterOk then .ok (.noRoster, topic)
  else
    match noobParseFields (pySplit '|' topic) with
    | .error e => .error e
    | .ok (_opener, submitted) =>
      if submitted.getD 0 = 0 then .ok (.noSubmitted, topic)
      else if ¬ fetchOk then .ok (.msgNotFound, topic)
      else .ok (.approved, topic)

/-! ### Transcript delivery on delete (`cogs/ticketing.py`, `newbot.py`,
`cogs/applications.py`) -/

/-- A transcript delivery target. -/
inductive Delivery where
  | s3
  | logChannel
  | inlinePost
  deriving DecidableEq, Repr

/-- `cogs/ticketing.py` `TicketChannelView._log_and_delete`: when the
panel's log channel does not resolve, the channel is deleted with no
transcript at all; otherwise the transcript file goes to the log channel,
with an S3 upload attempted first (its failure is swallowed).  Result:
(deliveries, channel deleted). -/
def ticketing_log_and_delete (logsResolved s3ok : Bool) :
    List Delivery × Bool :=
  if ¬ logsResolved then ([], true)
  else ((if s3ok then [Delivery.s3] else []) ++ [Delivery.logChannel], true)

/-- `newbot.py` `TicketControlsView.close`: the transcript goes to the log
channel when configured, otherwise it is posted inline in the ticket
channel itself, immediately before deletion. -/
def newbot_close_delivery (logConfigured : Bool) : List Delivery × Bool :=
  if logConfigured then ([Delivery.logChannel], true)
  else ([Delivery.inlinePost], true)

/-- `cogs/applications.py` `Applications.export_and_log` as invoked by
`DeleteButton`: returns early with no delivery when the log channel does
not resolve; the caller deletes the channel regardless. -/
def applications_export_and_log (logResolved : Bool) : List Delivery × Bool :=
  if logResolved then ([Delivery.logChannel], true) else ([], true)

/-! ### Configuration loaders (`newbot.py`, `cogs/ticketing.py`,
`cogs/coaching.py`) -/

/-- The state of the persisted JSON config file. -/
inductive FileState where
  | absent
  | unreadable
  | content (s : Str)
  deriving DecidableEq, Repr

/-- `newbot.py` `load_all`: the whole open-and-parse is wrapped in
`try/except Exception`, so every failure degrades to `{}`. -/
def load_all (α : Type) (empty : α) (parse : Str → Option α) :
    FileState → Except PyErr α
  | .absent => .ok empty
  | .unreadable => .ok empty
  | .content s => .ok ((parse s).getD empty)

/-- `cogs/ticketing.py` `load_config`: same structure as `load_all`. -/
def load_config (α : Type) (empty : α) (parse : Str → Option α) :
    FileState → Except PyErr α
  | .absent => .ok empty
  | .unreadable => .ok empty
  | .content s => .ok ((parse s).getD empty)

/-- `cogs/coaching.py` `Storage.load`: only `json.load` is inside the
`try`, and only `json.JSONDecodeError` is caught — `open` raising (an
unreadable existing file) escapes to the caller. -/
def storage_load (α : Type) (empty : α) (parse : Str → Option α) :
    FileState → Except PyErr α
  | .absent => .ok empty
  | .unreadable => .error .osError
  | .content s => .ok ((parse s).getD empty)

/-! ### Helper lemmas for the claim theorems -/

theorem metaOf_pack (p t o : Nat) (c : Option Nat) (hc : c ≠ some 0) :
    metaOf (some (meta_pack p t o c)) = ⟨some p, some t, some o, c⟩ := by
  unfold metaOf
  rw [meta_roundtrip p t o c hc]

theorem semi_not_mem_natToStr (n : Nat) : ';' ∉ natToStr n :=
  not_mem_natToStr_of_not_digit (by decide) n

theorem pySplitSemiSp_no_semi {s : Str} (h : ';' ∉ s) :
    pySplitSemiSp s = [s] := by
  induction s with
  | nil => rfl
  | cons c cs ih =>
    have hc : c ≠ ';' := fun hcs => h (hcs ▸ List.mem_cons_self c cs)
    have hcs : ';' ∉ cs := fun hm => h (List.mem_cons_of_mem c hm)
    cases cs with
    | nil => rfl
    | cons c2 cs2 =>
      rw [pySplitSemiSp, if_neg (fun hand => hc hand.1), ih hcs]
      rfl

theorem pySplitSemiSp_cons_sep {a r : Str} (h : ';' ∉ a) :
    pySplitSemiSp (a ++ ';' :: ' ' :: r) = a :: pySplitSemiSp r := by
  induction a with
  | nil =>
    rw [List.nil_append, pySplitSemiSp, if_pos ⟨rfl, rfl⟩]
  | cons c cs ih =>
    have hc : c ≠ ';' := fun hcs => h (hcs ▸ List.mem_cons_self c cs)
    have hcs : ';' ∉ cs := fun hm => h (List.mem_cons_of_mem c hm)
    cases cs with
    | nil =>
      rw [List.cons_append, List.nil_append, pySplitSemiSp,
        if_neg (fun hand => hc hand.1), pySplitSemiSp, if_pos ⟨rfl, rfl⟩]
      rfl
    | cons c2 cs2 =>
      rw [List.cons_append, List.cons_append, pySplitSemiSp,
        if_neg (fun hand => hc hand.1)]
      rw [List.cons_append] at ih
      rw [ih hcs]
      rfl

theorem hasEq_pair (k v : Str) : hasEq (k ++ '=' :: v) = true := by
  induction k with
  | nil => simp [hasEq]
  | cons c cs ih => simp [hasEq, ih]

theorem pySplit_pair_full {k v : Str} (hk : '=' ∉ k) (hv : '=' ∉ v) :
    pySplit '=' (k ++ '=' :: v) = [k, v] := by
  rw [pySplit_cons_sep hk, pySplit_no_sep hv]

/-- The topic string written by `cogs/coaching.py` `PanelView.open_ticket`:
`opener={id}; counter={n}; claimed_by=None` (with the claimed value left
generic, as `TicketView.claim` rewrites it). -/
def coachingTopic (opener counter : Nat) (claimed : Str) : Str :=
  ("opener".data ++ '=' :: natToStr opener) ++ ';' :: ' ' ::
  (("counter".data ++ '=' :: natToStr counter) ++ ';' :: ' ' ::
   ("claimed_by".data ++ '=' :: claimed))

theorem coachingClaimParts_coachingTopic (o c : Nat) (s : Str)
    (hs1 : ';' ∉ s) (hs2 : '=' ∉ s) :
    coachingClaimParts (coachingTopic o c s) =
      .ok [("opener".data, natToStr o), ("counter".data, natToStr c),
           ("claimed_by".data, s)] := by
  unfold coachingClaimParts coachingTopic
  rw [pySplitSemiSp_cons_sep (a := "opener".data ++ '=' :: natToStr o) (by
      intro hm
      rcases List.mem_append.mp hm with h | h
      · revert h; decide
      · rcases List.mem_cons.mp h with h | h
        · exact absurd h (by decide)
        · exact semi_not_mem_natToStr o h),
    pySplitSemiSp_cons_sep (a := "counter".data ++ '=' :: natToStr c) (by
      intro hm
      rcases List.mem_append.mp hm with h | h
      · revert h; decide
      · rcases List.mem_cons.mp h with h | h
        · exact absurd h (by decide)
        · exact semi_not_mem_natToStr c h),
    pySplitSemiSp_no_semi (s := "claimed_by".data ++ '=' :: s) (by
      intro hm
      rcases List.mem_append.mp hm with h | h
      · revert h; decide
      · rcases List.mem_cons.mp h with h | h
        · exact absurd h (by decide)
        · exact hs1 h)]
  simp only [List.filter, hasEq_pair]
  rw [List.map_cons, List.map_cons, List.map_cons, List.map_nil,
    pySplit_pair_full (k := "opener".data) (by decide) (eq_not_mem_natToStr o),
    pySplit_pair_full (k := "counter".data) (by decide) (eq_not_mem_natToStr c),
    pySplit_pair_full (k := "claimed_by".data) (by decide) hs2]
  rfl

theorem extract_kv_coachingTopic (o c : Nat) (s : Str)
    (hs1 : ';' ∉ s) (hs2 : '=' ∉ s) :
    extract_kv (some (coachingTopic o c s)) "opener".data =
      some (natToStr o) := by
  simp only [extract_kv]
  rw [coachingClaimParts_coachingTopic o c s hs1 hs2]
  rfl

theorem natToStr_inj {a b : Nat} (h : natToStr a = natToStr b) : a = b := by
  have ha := pyIntNat_natToStr a
  rw [h, pyIntNat_natToStr b] at ha
  exact (Except.ok.inj ha).symm

theorem ticketCount_eq_zero_of_not_holds {chans : List (Option Str)}
    {pid user : Nat} (h : holdsTicket chans pid user = false) :
    ticketCount chans pid user = 0 := by
  unfold holdsTicket at h
  unfold ticketCount
  induction chans with
  | nil => rfl
  | cons t ts ih =>
    rw [List.any_cons, Bool.or_eq_false_iff] at h
    obtain ⟨h1, h2⟩ := h
    simp only [List.filter_cons, h1, if_false, Bool.false_eq_true, ih h2]

theorem ticketCount_append (l1 l2 : List (Option Str)) (pid user : Nat) :
    ticketCount (l1 ++ l2) pid user =
      ticketCount l1 pid user + ticketCount l2 pid user := by
  unfold ticketCount
  rw [List.filter_append, List.length_append]

theorem ticketCount_new_channel (pid seq user p u : Nat) :
    ticketCount [some (meta_pack pid seq user none)] p u =
      if pid = p ∧ user = u then 1 else 0 := by
  have hmeta := metaOf_pack pid seq user none (fun h => Option.noConfusion h)
  unfold ticketCount
  simp only [List.filter, hmeta]
  by_cases h1 : pid = p
  · by_cases h2 : user = u
    · subst h1
      subst h2
      simp
    · subst h1
      simp [h2]
  · simp [h1]

/-! ## Claim theorems -/

/-- C1 (counterexample).  In `cogs/ticketing.py` `TicketChannelView.claim`
the stored `claimer_id` is NOT immutable: a ticket already claimed by
roster member 1 is re-claimed by roster member 2, the call succeeds
(no `AlreadyClaimed`), and the stored `claimer_id` changes to 2. -/
theorem c1_ticketing_claim_overwrites :
    ticketingClaim [1, 2] ⟨7, 10, some 1⟩ 2 =
      (TClaimRes.claimed, ⟨7, 10, some 2⟩) := by decide

/-- C1 (amended).  In `newbot.py` `TicketControlsView.claim` the claimer
is write-once: a claim of an unclaimed ticket by an authorized actor `a`
commits `a` into the topic, and any later claim attempt by an authorized
actor `b` fails with `AlreadyClaimed` naming `a` and leaves the stored
topic (hence `claimer_id`) unchanged. -/
theorem c1_newbot_claim_immutable (p t o a b : Nat) (mc1 mc2 : Bool)
    (mr1 pr1 mr2 pr2 : List Nat) (ha : a ≠ 0)
    (h1 : user_has_panel_permission mc1 mr1 pr1 = true)
    (h2 : user_has_panel_permission mc2 mr2 pr2 = true) :
    newbotClaim (some (meta_pack p t o none)) a mc1 mr1 pr1 =
      (ClaimRes.claimed, some (meta_pack p t o (some a))) ∧
    newbotClaim (some (meta_pack p t o (some a))) b mc2 mr2 pr2 =
      (ClaimRes.alreadyClaimed a, some (meta_pack p t o (some a))) := by
  have hca : (some a : Option Nat) ≠ some 0 := fun h => ha (Option.some.inj h)
  constructor
  · unfold newbotClaim
    rw [metaOf_pack p t o none (fun h => Option.noConfusion h)]
    simp [newbotClaimStep, h1, truthyNat]
  · unfold newbotClaim
    rw [metaOf_pack p t o (some a) hca]
    simp [newbotClaimStep, h2, truthyNat, ha]

/-- C1 (witness). -/
theorem c1_newbot_claim_immutable_witness :
    newbotClaim (some (meta_pack 1 2 3 none)) 4 true [] [] =
      (ClaimRes.claimed, some (meta_pack 1 2 3 (some 4))) ∧
    newbotClaim (some (meta_pack 1 2 3 (some 4))) 5 true [] [] =
      (ClaimRes.alreadyClaimed 4, some (meta_pack 1 2 3 (some 4))) :=
  c1_newbot_claim_immutable 1 2 3 4 5 true true [] [] [] [] (by decide) rfl rfl

/-- C2.  The claim handlers have no per-ticket critical section: the
guards and the committing write use the metadata captured by an earlier
read, and the handler `await`s in between.  Under the interleaving
read(2), read(3), write(2), write(3) on one unclaimed ticket, both
authorized actors observe it unclaimed, both commit, both report
success, and the stored claimer ends as the later writer 3 — two winners
instead of exactly one. -/
theorem c2_interleaved_claims_both_succeed :
    (newbotClaimStep (metaOf (some (meta_pack 1 1 5 none))) 2 true [] []
        (some (meta_pack 1 1 5 none))).1 = ClaimRes.claimed ∧
    (newbotClaimStep (metaOf (some (meta_pack 1 1 5 none))) 3 true [] []
        ((newbotClaimStep (metaOf (some (meta_pack 1 1 5 none))) 2 true [] []
            (some (meta_pack 1 1 5 none))).2)).1 = ClaimRes.claimed ∧
    (newbotClaimStep (metaOf (some (meta_pack 1 1 5 none))) 3 true [] []
        ((newbotClaimStep (metaOf (some (meta_pack 1 1 5 none))) 2 true [] []
            (some (meta_pack 1 1 5 none))).2)).2
      = some (meta_pack 1 1 5 (some 3)) := by decide

/-- C3 (counterexample).  `decode(encode(t)) == t` fails for the
representable ticket whose `claimer_id` is the falsy id `0`:
`meta_pack` renders it as the literal `none`, so it decodes back to an
unset claimer. -/
theorem c3_zero_claimer_roundtrip_fails :
    meta_unpack (some (meta_pack 7 3 42 (some 0))) =
      .ok ⟨some 7, some 3, some 42, none⟩ ∧
    meta_unpack (some (meta_pack 7 3 42 (some 0))) ≠
      .ok ⟨some 7, some 3, some 42, some 0⟩ := by decide

/-- C3 (amended).  The round trip holds away from the falsy edge cases:
for `meta_pack`/`meta_unpack` whenever the claimer is not `0`; for
`topic_pack`/`topic_unpack` (whose decoder returns the raw string
renderings) whenever the optional numeric fields are not `0`, the
optional timestamp strings are non-empty, pipe-free, and not the literal
`none`, and the created timestamp is pipe-free. -/
theorem c3_codec_roundtrip :
    (∀ (p t o : Nat) (c : Option Nat), c ≠ some 0 →
      meta_unpack (some (meta_pack p t o c)) =
        .ok ⟨some p, some t, some o, c⟩) ∧
    (∀ (opener : Nat) (created : Str) (submitted : Option Str)
        (smsg : Option Nat) (approved : Option Str) (entry : Option Nat),
      '|' ∉ created →
      (∀ s, submitted = some s → '|' ∉ s ∧ s ≠ [] ∧ s ≠ "none".data) →
      (∀ s, approved = some s → '|' ∉ s ∧ s ≠ [] ∧ s ≠ "none".data) →
      smsg ≠ some 0 → entry ≠ some 0 →
      topic_unpack
          (some (topic_pack opener created submitted smsg approved entry)) =
        .ok ⟨some (natToStr opener), some created, submitted,
             smsg.map natToStr, approved, entry.map natToStr⟩) :=
  ⟨meta_roundtrip, topic_roundtrip⟩

/-- C3 (witness). -/
theorem c3_codec_roundtrip_witness :
    meta_unpack (some (meta_pack 3 7 9 (some 2))) =
      .ok ⟨some 3, some 7, some 9, some 2⟩ ∧
    topic_unpack (some (topic_pack 5 "2024".data (some "1".data) (some 42)
        none (some 7))) =
      .ok ⟨some (natToStr 5), some "2024".data, some "1".data,
           some (natToStr 42), none, some (natToStr 7)⟩ :=
  ⟨c3_codec_roundtrip.1 3 7 9 (some 2) (by decide),
   c3_codec_roundtrip.2 5 "2024".data (some "1".data) (some 42) none (some 7)
     (by decide)
     (fun s h => by injection h with h'; subst h'; exact ⟨by decide, by decide, by decide⟩)
     (fun s h => Option.noConfusion h)
     (by decide) (by decide)⟩

/-- C4 (counterexample).  The decode path inside `cogs/coaching.py`
`TicketView.claim` is not total: its inline `key=value` parse is not
wrapped in `try` and uses an unbounded `split("=")`, so foreign topic
metadata containing a segment with two `=` (here `a=b=c`) raises
`ValueError` out of the handler instead of degrading. -/
theorem c4_coaching_claim_parse_raises :
    coachingClaimParts "a=b=c".data = .error PyErr.valueError := by decide

/-- C4 (amended).  The dedicated codecs are total: `meta_unpack` and
`topic_unpack` never raise (their bare `except` swallows everything),
and input without the namespace marker degrades to the all-unset state;
`_extract_kv` catches its parse errors and returns `None`.  (Corrupt
namespaced input may still decode to partially-set fields, and the
inline parse in the coaching claim handler can raise — see the
counterexample.) -/
theorem c4_codec_decode_total :
    (∀ topic, ∃ m, meta_unpack topic = .ok m) ∧
    (∀ t, containsSub "ticket_meta".data t = false →
      meta_unpack (some t) = .ok Meta.unset) ∧
    (∀ topic, ∃ m, topic_unpack topic = .ok m) ∧
    (∀ t, containsSub "coach_app".data t = false →
      topic_unpack (some t) = .ok CoachMeta.unset) ∧
    (∀ t key e, coachingClaimParts t = .error e →
      extract_kv (some t) key = none) := by
  refine ⟨?_, ?_, ?_, ?_, ?_⟩
  · intro topic
    match topic with
    | none => exact ⟨Meta.unset, rfl⟩
    | some t =>
      by_cases h : containsSub "ticket_meta".data t = true
      · exact ⟨meta_unpack_body t, by simp [meta_unpack, h]⟩
      · rw [Bool.not_eq_true] at h
        exact ⟨Meta.unset, by simp [meta_unpack, h]⟩
  · intro t h
    simp [meta_unpack, h]
  · intro topic
    match topic with
    | none => exact ⟨CoachMeta.unset, rfl⟩
    | some t =>
      by_cases h : containsSub "coach_app".data t = true
      · exact ⟨topic_unpack_body t, by simp [topic_unpack, h]⟩
      · rw [Bool.not_eq_true] at h
        exact ⟨CoachMeta.unset, by simp [topic_unpack, h]⟩
  · intro t h
    simp [topic_unpack, h]
  · intro t key e h
    simp [extract_kv, h]

/-- C4 (witness). -/
theorem c4_codec_decode_total_witness :
    meta_unpack (some "garbage".data) = .ok Meta.unset ∧
    extract_kv (some "a=b=c".data) "opener".data = none :=
  ⟨c4_codec_decode_total.2.1 "garbage".data (by decide),
   c4_codec_decode_total.2.2.2.2 "a=b=c".data "opener".data PyErr.valueError
     (by decide)⟩

/-- C5 (counterexample).  `cogs/ticketing.py` `TicketPanelView.open_ticket`
has no `AlreadyOpen` guard: requester 5 opens two tickets in a row under
the same panel, both succeed, and the guild then holds two live tickets
for the same `(panel, requester)`. -/
theorem c5_ticketing_open_no_guard :
    ticketingOpen ⟨true, true, 1⟩ [] 5 = .ok (⟨true, true, 2⟩, [(1, 5)]) ∧
    ticketingOpen ⟨true, true, 2⟩ [(1, 5)] 5 =
      .ok (⟨true, true, 3⟩, [(1, 5), (2, 5)]) ∧
    (([(1, 5), (2, 5)] : List (Nat × Nat)).filter (fun m => m.2 == 5)).length
      = 2 := by decide

/-- C5 (amended).  `newbot.py` `OpenPanelView.open_ticket` does enforce the
invariant: with the panel configured and its category resolving, opening
fails with `AlreadyOpen` exactly when the requester already holds a
ticket for this panel, and a successful open takes the per-`(panel,
requester)` ticket count from 0 to 1 while at-most-one is preserved for
every other pair. -/
theorem c5_newbot_open_guard (g : NGuild) (chans : List (Option Str))
    (pid user : Nat) (hp : panelLookup g pid = some true) :
    (open_ticket g chans pid user = .error .alreadyOpen ↔
      holdsTicket chans pid user = true) ∧
    (holdsTicket chans pid user = false →
      open_ticket g chans pid user =
        .ok ({ g with next_ticket_seq := g.next_ticket_seq + 1 },
             chans ++ [some (meta_pack pid g.next_ticket_seq user none)],
             g.next_ticket_seq) ∧
      ticketCount chans pid user = 0 ∧
      ticketCount (chans ++ [some (meta_pack pid g.next_ticket_seq user none)])
        pid user = 1 ∧
      (∀ p u, ticketCount chans p u ≤ 1 →
        ticketCount (chans ++ [some (meta_pack pid g.next_ticket_seq user none)])
          p u ≤ 1)) := by
  constructor
  · by_cases h : holdsTicket chans pid user = true
    · simp [open_ticket, hp, h]
    · rw [Bool.not_eq_true] at h
      simp [open_ticket, hp, h]
  · intro h0
    have hzero : ticketCount chans pid user = 0 :=
      ticketCount_eq_zero_of_not_holds h0
    refine ⟨by simp [open_ticket, hp, h0], hzero, ?_, ?_⟩
    · rw [ticketCount_append, hzero, ticketCount_new_channel]
      simp
    · intro p u hle
      rw [ticketCount_append, ticketCount_new_channel]
      by_cases hc : pid = p ∧ user = u
      · obtain ⟨e1, e2⟩ := hc
        subst e1
        subst e2
        rw [hzero]
        simp
      · rw [if_neg hc]
        omega

/-- C5 (witness). -/
theorem c5_newbot_open_guard_witness :
    open_ticket ⟨[(1, true)], 1⟩ [] 1 5 =
      .ok (⟨[(1, true)], 2⟩, [some (meta_pack 1 1 5 none)], 1) :=
  ((c5_newbot_open_guard ⟨[(1, true)], 1⟩ [] 1 5 (by decide)).2 (by decide)).1

/-- C6 (counterexample).  `noobbot.py` `CoachControlsView.approve` has no
`AlreadyApproved` guard and allocates no roster entry id: on a submitted
topic it publishes and leaves the topic unchanged, so the state after a
successful approval is identical and a repeated approve publishes to the
roster again instead of failing. -/
theorem c6_noobbot_reapprove_republishes :
    noob_approve true true true
        ("coach|opener=5|submitted=42|approved=none".data) =
      .ok (NRes.approved,
        "coach|opener=5|submitted=42|approved=none".data) := by decide

/-- C6 (amended).  `coachbot.py` `CoachControlsView.approve` behaves as
claimed: on a ticket whose topic is already marked approved with an
entry id, the call fails with `AlreadyApproved`, publishes nothing and
changes no state; and every successful approval returns the current
per-tenant `next_entry_id` and bumps it by one, so entry ids are
strictly increasing, from a counter separate from any ticket sequence.
`noobbot.py`'s variant has neither the guard nor the counter. -/
theorem c6_coachbot_approve :
    (∀ (fetchOk rosterOk : Bool) (topic : Option Str) (nowIso : Str)
        (actorId nextEntry : Nat),
      truthyStr (coachMetaOf topic).submitted = true →
      truthyStr (coachMetaOf topic).smsg = true →
      truthyStr (coachMetaOf topic).approved = true →
      truthyStr (coachMetaOf topic).entry = true →
      coach_approve true fetchOk rosterOk topic nowIso actorId nextEntry =
        .ok (.alreadyApproved, nextEntry, topic, [])) ∧
    (∀ (adminOk fetchOk rosterOk : Bool) (topic : Option Str) (nowIso : Str)
        (actorId nextEntry e n' : Nat) (t' : Option Str) (pub : List Nat),
      coach_approve adminOk fetchOk rosterOk topic nowIso actorId nextEntry =
        .ok (.approved e, n', t', pub) →
      e = nextEntry ∧ n' = nextEntry + 1 ∧ pub = [nextEntry]) := by
  constructor
  · intro fetchOk rosterOk topic nowIso actorId nextEntry hsub hsmsg happ hent
    unfold coach_approve
    simp [hsub, hsmsg, happ, hent]
  · intro adminOk fetchOk rosterOk topic nowIso actorId nextEntry e n' t' pub h
    simp only [coach_approve] at h
    repeat' split at h
    all_goals simp_all
    all_goals
      obtain ⟨h1, h2, h3, h4⟩ := h
      subst h1
      subst h2
      subst h4
      exact ⟨rfl, rfl⟩

/-- C6 (witness). -/
theorem c6_coachbot_approve_witness :
    coach_approve true true true
        (some (topic_pack 8 "d".data (some "x".data) (some 42)
          (some "y".data) (some 7))) "now".data 9 3 =
      .ok (.alreadyApproved, 3,
        some (topic_pack 8 "d".data (some "x".data) (some 42)
          (some "y".data) (some 7)), []) :=
  c6_coachbot_approve.1 true true
    (some (topic_pack 8 "d".data (some "x".data) (some 42) (some "y".data)
      (some 7))) "now".data 9 3 (by decide) (by decide) (by decide) (by decide)

/-- C7.  The transcript fallback chain is broken in two of the three
variants: `cogs/ticketing.py` `_log_and_delete` deletes the room with NO
transcript delivered when the panel's log channel does not resolve (even
though its confirmation prompt promises "It will be logged before
deletion"), and `cogs/applications.py` `export_and_log` returns without
delivering while its caller deletes the room anyway.  Only `newbot.py`'s
close falls back to an inline post.  When the log channel resolves,
ticketing delivers there (with S3 attempted in addition). -/
theorem c7_transcript_dropped_without_log_channel :
    ticketing_log_and_delete false true = ([], true) ∧
    ticketing_log_and_delete false false = ([], true) ∧
    applications_export_and_log false = ([], true) ∧
    newbot_close_delivery false = ([Delivery.inlinePost], true) ∧
    ticketing_log_and_delete true true =
      ([Delivery.s3, Delivery.logChannel], true) := by decide

/-- C8 (counterexample).  In `cogs/ticketing.py` the requester cannot
close (or reopen) their own ticket: an actor who is neither an
administrator nor a claim-role holder — in particular the requester —
is rejected with "Only staff can close tickets". -/
theorem c8_ticketing_close_rejects_requester :
    ticketingClose false false false = CloseRes.onlyStaff ∧
    ticketingReopen false false true = CloseRes.onlyStaff := by decide

/-- C8 (amended).  The close guards are role-based and differ per
variant: ticketing's close/reopen succeed exactly for administrators or
claim-role holders on a not-yet-closed (resp. closed) ticket; coaching's
close also admits the requester read from the topic.  The close effect
does revoke and reopen does restore `send_messages` on the requester's
overwrite entry, while the claim role keeps (or gains) send access. -/
theorem c8_close_guards_and_lock :
    (∀ adm role closed : Bool,
      ticketingClose adm role closed = CloseRes.confirmed ↔
        ((adm || role) = true ∧ closed = false)) ∧
    (∀ (cr : Nat) (lock : Bool) (opener : Nat) (p : Overwrite),
      p.send ≠ none →
      lockEntry (some cr) lock (OwTarget.member opener, p) =
        (OwTarget.member opener, { p with send := some (!lock) })) ∧
    (∀ (cr : Nat) (lock : Bool) (p : Overwrite),
      lockEntry (some cr) lock (OwTarget.role cr, p) =
        (OwTarget.role cr,
          ⟨if p.view = some false then p.view else some true, some true⟩)) ∧
    (∀ (o c : Nat) (s : Str) (actor : Nat) (roleB admB : Bool),
      ';' ∉ s → '=' ∉ s →
      (coachingCloseAllowed (some (coachingTopic o c s)) actor roleB admB
          = true ↔ (o = actor ∨ roleB = true ∨ admB = true))) := by
  refine ⟨by decide, ?_, ?_, ?_⟩
  · intro cr lock opener p hp
    simp [lockEntry, hp]
  · intro cr lock p
    simp [lockEntry]
  · intro o c s actor roleB admB hs1 hs2
    unfold coachingCloseAllowed
    rw [extract_kv_coachingTopic o c s hs1 hs2]
    have hiff : natToStr o = natToStr actor ↔ o = actor :=
      ⟨natToStr_inj, fun h => h ▸ rfl⟩
    simp [hiff, or_assoc]

/-- C8 (witness). -/
theorem c8_close_guards_and_lock_witness :
    (ticketingClose true false false = CloseRes.confirmed ↔
      ((true || false) = true ∧ false = false)) ∧
    lockEntry (some 9) true (OwTarget.member 5, ⟨some true, some true⟩) =
      (OwTarget.member 5, ⟨some true, some false⟩) ∧
    (coachingCloseAllowed (some (coachingTopic 5 1 "None".data)) 5 false false
        = true ↔ ((5 : Nat) = 5 ∨ false = true ∨ false = true)) :=
  ⟨c8_close_guards_and_lock.1 true false false,
   c8_close_guards_and_lock.2.1 9 true 5 ⟨some true, some true⟩ (by decide),
   c8_close_guards_and_lock.2.2.2 5 1 "None".data 5 false false (by decide)
     (by decide)⟩

/-- C9 (counterexample).  Two panels of one tenant do NOT allocate ticket
ids independently: with panels 1 and 2 configured and a fresh counter,
the first ticket opened under panel 1 gets id 1, and the first ticket
then opened under panel 2 gets id 2, not 1. -/
theorem c9_second_panel_first_ticket_not_one :
    open_ticket ⟨[(1, true), (2, true)], 1⟩ [] 1 10 =
      .ok (⟨[(1, true), (2, true)], 2⟩, [some (meta_pack 1 1 10 none)], 1) ∧
    open_ticket ⟨[(1, true), (2, true)], 2⟩ [some (meta_pack 1 1 10 none)]
        2 11 =
      .ok (⟨[(1, true), (2, true)], 3⟩,
           [some (meta_pack 1 1 10 none), some (meta_pack 2 2 11 none)], 2) ∧
    (2 : Nat) ≠ 1 := by
  refine ⟨?_, ?_, ?_⟩ <;> decide

/-- C9 (amended).  Ticket ids come from the single per-tenant
`next_ticket_seq` counter shared by every panel: any successful open
returns the tenant's current counter value — independent of which panel
was used — and bumps that counter by one; only the tenant's first
ticket overall gets id 1. -/
theorem c9_shared_ticket_counter (g : NGuild) (chans : List (Option Str))
    (pid user : Nat) (g' : NGuild) (chans' : List (Option Str)) (seq : Nat)
    (h : open_ticket g chans pid user = .ok (g', chans', seq)) :
    seq = g.next_ticket_seq ∧ g'.next_ticket_seq = g.next_ticket_seq + 1 ∧
    g'.panels = g.panels := by
  unfold open_ticket at h
  repeat' split at h
  all_goals simp_all
  all_goals
    obtain ⟨h1, h2, h3⟩ := h
    subst h1
    subst h3
    exact ⟨rfl, rfl⟩

/-- C9 (witness). -/
theorem c9_shared_ticket_counter_witness :
    (1 : Nat) = (NGuild.mk [(2, true)] 1).next_ticket_seq ∧
    (NGuild.mk [(2, true)] 2).next_ticket_seq =
      (NGuild.mk [(2, true)] 1).next_ticket_seq + 1 ∧
    (NGuild.mk [(2, true)] 2).panels = (NGuild.mk [(2, true)] 1).panels :=
  c9_shared_ticket_counter ⟨[(2, true)], 1⟩ [] 2 7 ⟨[(2, true)], 2⟩
    [some (meta_pack 2 1 7 none)] 1 (by decide)

/-- C10 (counterexample).  `cogs/coaching.py` `Storage.load` is not total
over the three file states: `open` sits outside its `try`, so an
existing-but-unreadable file raises `OSError` to the caller instead of
yielding an empty configuration. -/
theorem c10_storage_load_raises_unreadable :
    storage_load Nat 0 (fun _ => none) FileState.unreadable =
      .error PyErr.osError := rfl

/-- C10 (amended).  `newbot.py` `load_all` and `cogs/ticketing.py`
`load_config` return the empty configuration for an absent, unreadable,
or invalid-JSON file (their `try/except Exception` wraps the whole
open-and-parse, so a corrupted file silently discards all previously
persisted state); `cogs/coaching.py` `Storage.load` does so only for an
absent or invalid-JSON file and raises on an unreadable one. -/
theorem c10_loaders :
    ∀ (α : Type) (empty : α) (parse : Str → Option α) (fs : FileState),
      (∃ v, load_all α empty parse fs = .ok v) ∧
      load_config α empty parse fs = load_all α empty parse fs ∧
      (∀ s, parse s = none → load_all α empty parse (.content s) = .ok empty) ∧
      storage_load α empty parse .absent = .ok empty ∧
      (∀ s, storage_load α empty parse (.content s) =
        .ok ((parse s).getD empty)) := by
  intro α empty parse fs
  refine ⟨?_, ?_, ?_, rfl, fun s => rfl⟩
  · cases fs with
    | absent => exact ⟨empty, rfl⟩
    | unreadable => exact ⟨empty, rfl⟩
    | content s => exact ⟨(parse s).getD empty, rfl⟩
  · cases fs <;> rfl
  · intro s hs
    simp [load_all, hs]

/-- C10 (witness). -/
theorem c10_loaders_witness :
    load_all Nat 0 (fun _ => none) (FileState.content "x".data) = .ok 0 :=
  (c10_loaders Nat 0 (fun _ => none) (FileState.content "x".data)).2.2.1
    "x".data rfl

end Newbot
